import Mathlib

/-!
Verification of the QRC protocol client in `node-red-qsys`
(`src/nodes/qsys-config/qsys-config.ts` and its compiled counterpart
`dist/nodes/qsys-config/qsys-config.js`).

The development shallowly embeds the parts of `NodeHandler` that the
specification talks about:

* the inbound frame decoder `NodeHandler.receive` (NUL-delimited JSON
  frames),
* the notification dispatch for `EngineStatus` frames,
* `NodeHandler.closeSocket` and the transport `close` / `end` / `timeout`
  event handlers,
* the request/response machinery of `NodeHandler.send` (the per-request
  `"package"` listener and its ten second timeout),
* the single-flight connection logic of `getSocket` / `initSocket`,
* the authentication (`Logon`) branch of the `ready` handler together with
  `handleResolve` / `handleReject` / `updateStatus`,
* the `QSysApiError.hint` error-code table of the compiled revision.

Bytes are modelled as natural numbers, the heap of sockets as a set of
destroyed socket identifiers, and JavaScript promises as `Option`-valued
settlement slots that can be written only once.
-/

namespace Qsys

/-! ### Decoded protocol objects

A minimal model of the JSON values `NodeHandler.receive` inspects: the
optional `method` member, `params.State` (for `EngineStatus`),
`result.Changes` (for `ChangeGroup.Poll`), the response `id` (JSON `null`
becomes `none`) and the structured `error` member. -/

/-- A structured error member of a response: numeric `code` and `message`,
as in the device wire format. -/
structure ApiError where
  code : Int
  message : String
deriving Repr, DecidableEq

/-- One entry of `result.Changes` in a `ChangeGroup.Poll` notification. -/
structure Change where
  component : Option String
  name : String
  value : String
deriving Repr, DecidableEq

/-- The slice of a parsed JSON frame that the handler code reads. -/
structure QsysObj where
  method : Option String
  state : Option String
  changes : List Change
  id : Option Int
  error : Option ApiError
deriving Repr, DecidableEq

/-! ### The frame decoder (`NodeHandler.receive`)

The source iterates over the chunk with a LOCAL buffer `rx`:

```
let rx = [];
for (let i = 0; i < data.length; i++) {
  if (data[i] == 0x0 && data.length != 0) {
    try {
      const obj = JSON.parse(Buffer.from(rx).toString());
      ... dispatch ...
      this.node.emit("package", obj);
      rx = [];
    } catch (err) { ... log ... }
  } else {
    rx.push(data[i]);
  }
}
```

The conjunct `data.length != 0` is vacuous inside the loop (`i <
data.length` already forces a nonempty chunk), so the delimiter test is
just `data[i] == 0x0`.  `JSON.parse` is abstracted into a `parse`
parameter; note that on a parse failure the buffer `rx` is NOT reset (the
reset sits inside the `try`, after the emit), and that `rx` is a local
variable, reinitialised to `[]` on every call to `receive`. -/

/-- The decode loop of `receive`: `rx` is the accumulated buffer, the
result is the ordered list of objects emitted on the node as `"package"`
events during this call. -/
def receiveAux (parse : List Nat → Option QsysObj) :
    List Nat → List Nat → List QsysObj
  | _, [] => []
  | rx, b :: rest =>
    if b = 0 then
      match parse rx with
      | some obj => obj :: receiveAux parse [] rest
      | none => receiveAux parse rx rest
    else
      receiveAux parse (rx ++ [b]) rest

/-- `NodeHandler.receive(data)`, projected onto the sequence of decoded
objects it emits.  The buffer starts empty on every call because `rx` is a
local variable of the method. -/
def receive (parse : List Nat → Option QsysObj) (data : List Nat) :
    List QsysObj :=
  receiveAux parse [] data

/-! ### A concrete fragment of `JSON.parse`

For concrete evaluations we instantiate `parse` with an honest
restriction of `JSON.parse` to byte strings spelling an object with a
single numeric member named `id`: byte `123` (opening brace), the five
bytes `34,105,100,34,58` spelling the quoted key `id` and a colon, one or
more ASCII digits, and byte `125` (closing brace).  `JSON.parse` accepts
exactly such strings among the inputs used below and throws on every
other one (truncated objects, bare punctuation, garbage prefixes). -/

/-- The five ASCII bytes of a quoted key `id` followed by a colon. -/
def idKeyBytes : List Nat := [34, 105, 100, 34, 58]

/-- All bytes are ASCII digits. -/
def allDigits (bs : List Nat) : Bool :=
  bs.all fun b => 48 ≤ b && b ≤ 57

/-- Numeric value of a string of ASCII digits. -/
def digitsToInt (bs : List Nat) : Int :=
  bs.foldl (fun acc b => acc * 10 + ((b : Int) - 48)) 0

/-- Restriction of `JSON.parse` to frames of the shape described above;
every other byte string fails, as `JSON.parse` throws on it. -/
def parseIdObj (bs : List Nat) : Option QsysObj :=
  match bs with
  | 123 :: rest =>
    let body := rest.dropLast
    if rest.getLast? = some 125 ∧ body.take 5 = idKeyBytes ∧
        body.drop 5 ≠ [] ∧ allDigits (body.drop 5) then
      some { method := none, state := none, changes := [],
             id := some (digitsToInt (body.drop 5)), error := none }
    else
      none
  | _ => none

/-- The eight bytes of the frame body spelling an object whose only member
is the numeric `id` 1 (open brace, quoted key `id`, colon, digit 1, close
brace). -/
def idFrame1 : List Nat := [123, 34, 105, 100, 34, 58, 49, 125]

/-- The decoded object of `idFrame1`. -/
def idObj1 : QsysObj :=
  { method := none, state := none, changes := [], id := some 1,
    error := none }

example : parseIdObj idFrame1 = some idObj1 := by decide
example : parseIdObj [58, 49, 125] = none := by decide
example : receive parseIdObj (idFrame1 ++ [0]) = [idObj1] := by decide

/-! ### The structured API error (`QSysApiError` in the compiled revision)

`class QSysApiError extends Error` carries the numeric `code` of the device
response and exposes a fixed human `hint` through a switch over the code. -/

/-- The error object `new QSysApiError(code, message)` built from a
response's `error` member. -/
structure QSysApiError where
  code : Int
  message : String
deriving Repr, DecidableEq

/-- The `hint` getter of `QSysApiError`: a switch over the numeric code
with a fixed string per known code and `"Unknown Error"` as default. -/
def QSysApiError.hint (e : QSysApiError) : String :=
  if e.code = -32700 then "Parse error. Invalid JSON was received by the server."
  else if e.code = -32600 then "Invalid request. The JSON sent is not a valid Request object."
  else if e.code = -32601 then "Method not found."
  else if e.code = -32602 then "Invalid params."
  else if e.code = -32603 then "Server error."
  else if e.code = -32604 then "Core is on Standby. This code is returned when a QRC command is received while the Core is not the active Core in a redundant Core configuration."
  else if e.code = 2 then "Invalid Page Request ID"
  else if e.code = 3 then "Bad Page Request - could not create the requested Page Request"
  else if e.code = 4 then "Missing file"
  else if e.code = 5 then "Change Groups exhausted"
  else if e.code = 6 then "Unknown change croup"
  else if e.code = 7 then "Unknown component name"
  else if e.code = 8 then "Unknown control"
  else if e.code = 9 then "Illegal mixer channel index"
  else if e.code = 10 then "Logon required"
  else "Unknown Error"

/-! ### Pending requests (`NodeHandler.send`)

After writing the frame, `send` registers a `"package"` listener on the
node and arms a ten second timer:

```
listener = (data) => {
  if (data.id === input.id) {
    clearTimeout(timeout);
    this.node.removeListener("package", listener);
    if (data.error !== undefined) {
      const error = new QSysApiError(data.error.code, data.error.message);
      reject(error);
    }
    resolve(data);
  }
};
this.node.addListener("package", listener);
timeout = setTimeout(() => {
  reject(new Error(`...did not respond within 10 seconds.`));
}, 10 * 1000);
```

A pending call is modelled by one entry: its request id, whether its
listener is still attached to the node (`registered`), whether its timer
is still armed (`timerActive`), and the one-shot settlement slot of its
promise (`settled`; a JavaScript promise keeps the first settlement, so a
`reject` followed by a `resolve` stays rejected). -/

/-- Settlement of the promise returned by `send`. -/
inductive Settled
  | resolved (r : QsysObj)
  | rejectedApi (e : QSysApiError)
  | rejectedTimeout (msg : String)
deriving Repr, DecidableEq

/-- First settlement wins: settling an already settled promise is a no-op. -/
def settleWith (v : Settled) : Option Settled → Option Settled
  | some w => some w
  | none => some v

/-- One pending `send` call. -/
structure PendingEntry where
  reqId : Int
  registered : Bool
  timerActive : Bool
  settled : Option Settled
deriving Repr, DecidableEq

/-- Registering a new pending call (the tail of `send`): the listener is
appended to the node's listener list with its timer armed. -/
def registerPending (reqId : Int) (ps : List PendingEntry) : List PendingEntry :=
  ps ++ [{ reqId := reqId, registered := true, timerActive := true, settled := none }]

/-- The message of the ten second timeout rejection, naming the device. -/
def timeoutMessage (deviceName : String) : String :=
  "Q-SYS device \"" ++ deviceName ++ "\" did not respond within 10 seconds."

/-- The timer callback of one pending call: it only rejects the promise.
It neither detaches the listener nor touches anything else. -/
def timeoutFire (deviceName : String) (e : PendingEntry) : PendingEntry :=
  if e.timerActive then
    { e with timerActive := false,
             settled := settleWith
               (.rejectedTimeout (timeoutMessage deviceName)) e.settled }
  else e

/-- Firing the timer of the pending entry at a given position. -/
def fireTimeout (deviceName : String) : Nat → List PendingEntry → List PendingEntry
  | _, [] => []
  | 0, e :: rest => timeoutFire deviceName e :: rest
  | n + 1, e :: rest => e :: fireTimeout deviceName n rest

/-- Whether a `"package"` event for a decoded response reaches this entry
and passes its id guard: the listener must still be attached and
`data.id === input.id` (a `null` id never equals the numeric request id). -/
def respMatches (resp : QsysObj) (e : PendingEntry) : Bool :=
  e.registered && resp.id == some e.reqId

/-- The `"package"` listener of one pending call, applied to a decoded
response: on an id match it disarms the timer, detaches itself, and
settles the promise — rejecting with a `QSysApiError` when the response
carries an `error` member (the unconditional `resolve(data)` that follows
in the source hits an already settled promise), resolving with the
response otherwise. -/
def fireListener (resp : QsysObj) (e : PendingEntry) : PendingEntry :=
  if respMatches resp e then
    { e with registered := false, timerActive := false,
             settled := settleWith
               (match resp.error with
                | some err => .rejectedApi { code := err.code, message := err.message }
                | none => .resolved resp) e.settled }
  else e

/-- Emitting a `"package"` event: every attached listener is invoked, in
registration order. -/
def deliverPackage (resp : QsysObj) (ps : List PendingEntry) : List PendingEntry :=
  ps.map (fireListener resp)

/-! ### Handler state and the socket lifecycle

`this.socket` holds a reference to a socket or `undefined`; sockets are
identified by numbers and the heap effect of `socket.destroy()` is
recorded in a set `destroyed` of destroyed socket identifiers.  Status
observers are the keys of `statusCallbacks`; each invocation a callback
receives is recorded in `delivered`.  The settlement slot of the in-flight
connection promise is `attemptSettled`. -/

/-- Settlement of the in-flight connection promise: resolved with a
socket or rejected with an error. -/
inductive AttemptResult
  | ok (sid : Nat)
  | error (msg : String)
deriving Repr, DecidableEq

/-- The `Status` union type of the source. -/
inductive Status
  | Idle | Active | Standby | Error | Inactive | Connected
deriving Repr, DecidableEq

/-- One invocation of a registered status callback: the callback receives
the handler's current socket, the status tag and the optional error. -/
structure CallbackCall where
  observer : String
  socket : Option Nat
  status : Status
  error : Option String
deriving Repr, DecidableEq

/-- The mutable state of a `NodeHandler` together with its observable
effects (destroyed sockets, delivered status callbacks). -/
structure HandlerState where
  socket : Option Nat
  connectionPromise : Option Nat
  destroyed : List Nat
  pending : List PendingEntry
  statusCallbacks : List String
  delivered : List CallbackCall
  attemptSettled : Option AttemptResult
deriving Repr, DecidableEq

/-- `closeSocket(socket)`: `socket?.destroy(); socket = undefined;` — the
argument socket is destroyed; the second statement rebinds the local
parameter and has no effect on the caller, in particular `this.socket` is
left untouched. -/
def closeSocket (arg : Option Nat) (s : HandlerState) : HandlerState :=
  match arg with
  | some i => { s with destroyed := insert i s.destroyed }
  | none => s

/-- The transport `close` handler: destroy the socket the handler was
registered on, and clear `this.socket` only when it still refers to that
same socket; pending requests are not touched. -/
def closeHandler (sock : Nat) (s : HandlerState) : HandlerState :=
  let s1 := closeSocket (some sock) s
  if s1.socket = some sock then { s1 with socket := none } else s1

/-- The transport `end` handler; its body coincides with the `close`
handler up to the logged message. -/
def endHandler (sock : Nat) (s : HandlerState) : HandlerState :=
  let s1 := closeSocket (some sock) s
  if s1.socket = some sock then { s1 with socket := none } else s1

/-- The transport `timeout` handler; its body coincides with the `close`
handler up to the logged message. -/
def timeoutHandler (sock : Nat) (s : HandlerState) : HandlerState :=
  let s1 := closeSocket (some sock) s
  if s1.socket = some sock then { s1 with socket := none } else s1

/-- Events emitted on the node while processing one decoded frame. -/
inductive Emit
  | ready
  | rx (c : Change)
  | package (o : QsysObj)
deriving Repr, DecidableEq

/-- Processing of one decoded frame inside `receive`: the switch over
`obj.method` (`EngineStatus` frames are assumed to carry `params.State`,
as the device guarantees), followed by the `"package"` emission.  An
`EngineStatus` of `"Active"` emits `"ready"`; one of `"Standby"` calls
`closeSocket(this.socket)`; a `ChangeGroup.Poll` emits one `"rx"` event
per entry of `result.Changes`, in array order. -/
def dispatchFrame (obj : QsysObj) (s : HandlerState) : HandlerState × List Emit :=
  match obj.method with
  | none => (s, [.package obj])
  | some m =>
    if m = "EngineStatus" then
      match obj.state with
      | some st =>
        if st = "Active" then (s, [.ready, .package obj])
        else if st = "Standby" then (closeSocket s.socket s, [.package obj])
        else (s, [.package obj])
      | none => (s, [.package obj])
    else if m = "ChangeGroup.Poll" then
      (s, obj.changes.map .rx ++ [.package obj])
    else
      (s, [.package obj])

/-- Result of demanding a socket synchronously. -/
inductive SocketDemandResult
  | existing (sid : Nat)
  | mustConnect
deriving Repr, DecidableEq

/-- `getSocket()`: resolve immediately with `this.socket` when present,
otherwise a connection has to be initiated. -/
def getSocket (s : HandlerState) : SocketDemandResult :=
  match s.socket with
  | some i => .existing i
  | none => .mustConnect

/-- The socket `send` writes to: the `forcedSocket` parameter (whose
default value is `this.socket`) when present, otherwise the result of
`getSocket()`. -/
def sendSocketChoice (forcedSocket : Option Nat) (s : HandlerState) :
    SocketDemandResult :=
  match forcedSocket with
  | some i => .existing i
  | none => getSocket s

/-- An `EngineStatus` notification frame with `params.State = "Standby"`. -/
def standbyFrame : QsysObj :=
  { method := some "EngineStatus", state := some "Standby", changes := [],
    id := none, error := none }

/-! ### Status fan-out and the connection promise callbacks

`updateStatus` invokes every registered callback; `handleResolve` and
`handleReject` are the two local callbacks of the `initSocket` executor
that settle the in-flight connection promise. -/

/-- `updateStatus(status, error?)`: every registered status callback is
invoked with the current socket, the status and the optional error. -/
def updateStatus (st : Status) (err : Option String) (s : HandlerState) :
    HandlerState :=
  { s with delivered := s.delivered ++ s.statusCallbacks.map fun cb =>
      { observer := cb, socket := s.socket, status := st, error := err } }

/-- First settlement wins for the connection promise as well. -/
def settleAttempt (v : AttemptResult) :
    Option AttemptResult → Option AttemptResult
  | some w => some w
  | none => some v

/-- `handleReject(error)`: clear the in-flight attempt, broadcast status
`"Error"` with the error to every observer, and reject the connection
promise.  `this.socket` is not assigned. -/
def handleReject (error : String) (s : HandlerState) : HandlerState :=
  let s1 := { s with connectionPromise := none }
  let s2 := updateStatus .Error (some error) s1
  { s2 with attemptSettled := settleAttempt (.error error) s2.attemptSettled }

/-- `handleResolve(socket)`: destroy a previously stored socket if any,
store the new one, clear the in-flight attempt, broadcast `"Connected"`,
and resolve the connection promise with the socket. -/
def handleResolve (sock : Nat) (s : HandlerState) : HandlerState :=
  let s1 := if s.socket ≠ none then closeSocket s.socket s else s
  let s2 := { s1 with socket := some sock, connectionPromise := none }
  let s3 := updateStatus .Connected none s2
  { s3 with attemptSettled := settleAttempt (.ok sock) s3.attemptSettled }

/-! ### The authentication branch of the `ready` handler

With authentication enabled, the `ready` handler sends a `Logon` request
on the fresh socket and settles the connection attempt from its outcome:

```
void this.send({...method: "Logon"...}, socket)
  .then((response) => {
    if (response.error) { handleReject(new Error(response.error)); }
    else { handleResolve(socket); }
  })
  .catch((e) => { handleReject(e); });
```
-/

/-- Outcome of the `Logon` request's promise: resolved with a response
whose `error` member is present or absent, or rejected. -/
inductive LogonOutcome
  | response (error : Option String)
  | failure (e : String)
deriving Repr, DecidableEq

/-- The `.then`/`.catch` continuation of the `Logon` request in the
`ready` handler. -/
def onLogonSettled (sock : Nat) (outcome : LogonOutcome) (s : HandlerState) :
    HandlerState :=
  match outcome with
  | .response (some err) => handleReject err s
  | .response none => handleResolve sock s
  | .failure e => handleReject e s

/-! ### Single-flight connection establishment

`getSocket` / `initSocket` run synchronously up to and including the
assignment of `this.connectionPromise` (the promise executor runs
synchronously and contains no await), so in the single-threaded event loop
each demand executes this section atomically:

```
async getSocket() {
  if (this.socket) { return Promise.resolve(this.socket); }
  return this.initSocket();
}
async initSocket() {
  if (this.connectionPromise) { return this.connectionPromise; }
  ...
  this.connectionPromise = new Promise((resolve, reject) => {
    ... const socket = connect({...}); ...
  });
  return this.connectionPromise;
}
```

`ConnState` projects the handler onto this section, with two ghost
fields: `nextAttempt` numbers connection attempts and `opens` counts the
`connect()` calls actually performed. -/

/-- State of the single-flight section. -/
structure ConnState where
  socket : Option Nat
  connectionPromise : Option Nat
  nextAttempt : Nat
  opens : Nat
deriving Repr, DecidableEq

/-- What a demand ends up awaiting. -/
inductive Awaited
  | resolvedSocket (sid : Nat)
  | attempt (a : Nat)
deriving Repr, DecidableEq

/-- `initSocket()`: return the in-flight attempt when one exists,
otherwise open the transport (ghost `opens` increments) and publish a
fresh attempt in `connectionPromise`. -/
def initSocket (s : ConnState) : ConnState × Nat :=
  match s.connectionPromise with
  | some a => (s, a)
  | none =>
    ({ s with connectionPromise := some s.nextAttempt,
              nextAttempt := s.nextAttempt + 1,
              opens := s.opens + 1 },
     s.nextAttempt)

/-- `getSocket()` in the single-flight projection. -/
def getSocketConn (s : ConnState) : ConnState × Awaited :=
  match s.socket with
  | some i => (s, .resolvedSocket i)
  | none =>
    let p := initSocket s
    (p.1, .attempt p.2)

/-- The ways a caller can demand a connection. -/
inductive Demand
  | send | getSocket | initSocket
deriving Repr, DecidableEq

/-- One demand: `send` (with no forced socket) and `getSocket` go through
`getSocket()`, `initSocket` directly through `initSocket()`. -/
def stepDemand : Demand → ConnState → ConnState × Awaited
  | .send, s => getSocketConn s
  | .getSocket, s => getSocketConn s
  | .initSocket, s =>
    let p := initSocket s
    (p.1, .attempt p.2)

/-- A burst of demands, executed back to back with no transport event in
between; returns the final state and what each demand awaits. -/
def runBurst : List Demand → ConnState → ConnState × List Awaited
  | [], s => (s, [])
  | d :: ds, s =>
    let p := stepDemand d s
    let q := runBurst ds p.1
    (q.1, p.2 :: q.2)

/-! ### Concrete states used in evaluations and witnesses -/

/-- A freshly registered pending call with the given request id. -/
def freshPending (reqId : Int) : PendingEntry :=
  { reqId := reqId, registered := true, timerActive := true, settled := none }

/-- A plain response frame (no `method`, no `error`) with the given id. -/
def plainResponse (reqId : Int) : QsysObj :=
  { method := none, state := none, changes := [], id := some reqId,
    error := none }

/-- A handler state with a live stored socket `1` and one pending request. -/
def stateLive : HandlerState :=
  { socket := some 1, connectionPromise := none, destroyed := [],
    pending := [freshPending 0], statusCallbacks := [], delivered := [],
    attemptSettled := none }

/-! ### Theorems -/

/-- C1: the claim states that feeding a valid frame stream in chunks
emits the same object sequence as feeding it whole. The code keeps the
decode buffer `rx` in a local variable of `receive`, so a frame split
across two calls is lost: the stream consisting of the single frame
`idFrame1` followed by its NUL delimiter decodes to `[idObj1]` when fed
whole, but splitting it after the fifth byte emits nothing, because the
first call discards the five buffered bytes and the second call parses
only the tail of the frame, which fails. -/
theorem receive_chunk_split_loses_frame :
    [123, 34, 105, 100, 34] ++ [58, 49, 125, 0] = idFrame1 ++ [0] ∧
    receive parseIdObj (idFrame1 ++ [0]) = [idObj1] ∧
    receive parseIdObj [123, 34, 105, 100, 34] ++
      receive parseIdObj [58, 49, 125, 0] = [] := by
  decide

/-- C2: the claim states that a frame failing to parse leaves following
frames intact. The reset `rx = []` sits inside the `try` block after the
emit, so a parse failure leaves the bad frame's bytes in the buffer and
they prefix the next frame: the stream holding the malformed one-byte
frame `[120]` and then the well-formed frame `idFrame1` emits nothing,
while the well-formed frame alone decodes fine. -/
theorem receive_bad_frame_poisons_next :
    receive parseIdObj ([120, 0] ++ (idFrame1 ++ [0])) = [] ∧
    receive parseIdObj (idFrame1 ++ [0]) = [idObj1] := by
  decide

/-- C3 counterexample: the claim states that on expiry of the ten second
timer the pending entry is removed so that a later response with the same
id finds no stale entry. Firing the timer of the single pending request
with id `0` rejects its promise but leaves its listener registered, and a
later response with id `0` still matches the stale entry. -/
theorem send_timeout_keeps_listener_cex :
    fireTimeout "Core" 0 [freshPending 0] =
      [{ reqId := 0, registered := true, timerActive := false,
         settled := some (.rejectedTimeout (timeoutMessage "Core")) }] ∧
    respMatches (plainResponse 0)
      { reqId := 0, registered := true, timerActive := false,
        settled := some (.rejectedTimeout (timeoutMessage "Core")) } = true := by
  decide

/-- C3 amended: for every send call whose matching response never
arrives, after the ten second deadline the call fails with a timeout
error naming the deadline and the device identity; the registered
response listener however is NOT removed, so a later response carrying
the same id still finds the stale entry. -/
theorem send_timeout_rejects_but_keeps_listener
    (name : String) (e : PendingEntry)
    (hreg : e.registered = true) (htimer : e.timerActive = true)
    (hset : e.settled = none) :
    timeoutFire name e =
      { e with timerActive := false,
               settled := some (.rejectedTimeout
                 ("Q-SYS device \"" ++ name ++
                   "\" did not respond within 10 seconds.")) } ∧
    (timeoutFire name e).registered = true ∧
    respMatches (plainResponse e.reqId) (timeoutFire name e) = true := by
  refine ⟨?_, ?_, ?_⟩
  · simp [timeoutFire, htimer, hset, settleWith, timeoutMessage]
  · simp [timeoutFire, htimer, hreg]
  · simp [timeoutFire, htimer, respMatches, hreg, plainResponse]

theorem send_timeout_rejects_but_keeps_listener_witness :
    (timeoutFire "Core" (freshPending 0)).registered = true :=
  (send_timeout_rejects_but_keeps_listener "Core" (freshPending 0)
    rfl rfl rfl).2.1

/-- C4: the claim states that connection teardown (transport `close`,
`end` or `timeout`) immediately fails every still-pending request with a
connection-closed error and cancels its timer. The three handlers only
destroy the socket and clear the stored reference: evaluated on a state
with a live socket `1` and one pending request, each of them leaves the
pending entry registered, its timer armed and its promise unsettled. -/
theorem teardown_leaves_pending_requests :
    (closeHandler 1 stateLive).pending = [freshPending 0] ∧
    (endHandler 1 stateLive).pending = [freshPending 0] ∧
    (timeoutHandler 1 stateLive).pending = [freshPending 0] ∧
    (freshPending 0).registered = true ∧
    (freshPending 0).timerActive = true ∧
    (freshPending 0).settled = none := by
  decide

/-- With an attempt already in flight and no stored socket, every demand
returns that same attempt and leaves the state unchanged. -/
theorem stepDemand_of_inflight (d : Demand) (s : ConnState) (a : Nat)
    (hs : s.socket = none) (hc : s.connectionPromise = some a) :
    stepDemand d s = (s, .attempt a) := by
  cases d <;> simp [stepDemand, getSocketConn, initSocket, hs, hc]

/-- A whole burst arriving while an attempt is in flight changes nothing
and awaits that attempt throughout. -/
theorem runBurst_of_inflight (ds : List Demand) (s : ConnState) (a : Nat)
    (hs : s.socket = none) (hc : s.connectionPromise = some a) :
    runBurst ds s = (s, List.replicate ds.length (.attempt a)) := by
  induction ds with
  | nil => rfl
  | cons d ds ih =>
    simp only [runBurst, stepDemand_of_inflight d s a hs hc, ih,
      List.length_cons, List.replicate_succ]

/-- The idle connection state used in the witness. -/
def connIdle : ConnState :=
  { socket := none, connectionPromise := none, nextAttempt := 0, opens := 0 }

/-- C5: for any burst of demands (`send`, `getSocket`, `initSocket`)
issued while no socket is stored and no attempt is in flight, exactly one
transport open occurs when the burst is nonempty (none when it is empty),
and every demand of the burst awaits that same single attempt. -/
theorem single_flight_connect (ds : List Demand) (s : ConnState)
    (hs : s.socket = none) (hc : s.connectionPromise = none) :
    (runBurst ds s).1.opens = s.opens + (if ds = [] then 0 else 1) ∧
    (runBurst ds s).2 =
      List.replicate ds.length (Awaited.attempt s.nextAttempt) := by
  cases ds with
  | nil => simp [runBurst]
  | cons d ds =>
    have hstep : stepDemand d s =
        ({ s with connectionPromise := some s.nextAttempt,
                  nextAttempt := s.nextAttempt + 1, opens := s.opens + 1 },
         .attempt s.nextAttempt) := by
      cases d <;> simp [stepDemand, getSocketConn, initSocket, hs, hc]
    have hrest := runBurst_of_inflight ds
      { s with connectionPromise := some s.nextAttempt,
               nextAttempt := s.nextAttempt + 1, opens := s.opens + 1 }
      s.nextAttempt hs rfl
    simp only [runBurst, hstep, hrest, List.length_cons, List.replicate_succ]
    simp

theorem single_flight_connect_witness :
    (runBurst [Demand.send, Demand.getSocket, Demand.send] connIdle).1.opens =
      connIdle.opens +
        (if ([Demand.send, Demand.getSocket, Demand.send] : List Demand) = []
          then 0 else 1) ∧
    (runBurst [Demand.send, Demand.getSocket, Demand.send] connIdle).2 =
      List.replicate ([Demand.send, Demand.getSocket, Demand.send] :
        List Demand).length (Awaited.attempt connIdle.nextAttempt) :=
  single_flight_connect [Demand.send, Demand.getSocket, Demand.send] connIdle
    rfl rfl

/-- The response `{"id":7,"error":{"code":7,"message":"Unknown component"}}`
of the specification's example. -/
def responseCode7 : QsysObj :=
  { method := none, state := none, changes := [], id := some 7,
    error := some { code := 7, message := "Unknown component" } }

/-- C6: a response carrying an `error` member completes the matching
pending request with a structured API error whose numeric code is the
response's code; the fixed human hint of that error follows the table of
the `hint` getter, every unlisted code mapping to `"Unknown Error"`. In
particular the example response with id `7` and code `7` settles pending
request `7` with an API error of code `7` whose hint is
`"Unknown component name"`. -/
theorem api_error_hint_table (c : Int) (msg : String)
    (h : c ∉ ([-32700, -32600, -32601, -32602, -32603, -32604,
               2, 3, 4, 5, 6, 7, 8, 9, 10] : List Int)) :
    QSysApiError.hint { code := -32700, message := msg } =
      "Parse error. Invalid JSON was received by the server." ∧
    QSysApiError.hint { code := -32600, message := msg } =
      "Invalid request. The JSON sent is not a valid Request object." ∧
    QSysApiError.hint { code := -32601, message := msg } = "Method not found." ∧
    QSysApiError.hint { code := -32602, message := msg } = "Invalid params." ∧
    QSysApiError.hint { code := -32603, message := msg } = "Server error." ∧
    QSysApiError.hint { code := -32604, message := msg } =
      "Core is on Standby. This code is returned when a QRC command is received while the Core is not the active Core in a redundant Core configuration." ∧
    QSysApiError.hint { code := 2, message := msg } = "Invalid Page Request ID" ∧
    QSysApiError.hint { code := 3, message := msg } =
      "Bad Page Request - could not create the requested Page Request" ∧
    QSysApiError.hint { code := 4, message := msg } = "Missing file" ∧
    QSysApiError.hint { code := 5, message := msg } = "Change Groups exhausted" ∧
    QSysApiError.hint { code := 6, message := msg } = "Unknown change croup" ∧
    QSysApiError.hint { code := 7, message := msg } = "Unknown component name" ∧
    QSysApiError.hint { code := 8, message := msg } = "Unknown control" ∧
    QSysApiError.hint { code := 9, message := msg } = "Illegal mixer channel index" ∧
    QSysApiError.hint { code := 10, message := msg } = "Logon required" ∧
    QSysApiError.hint { code := c, message := msg } = "Unknown Error" ∧
    deliverPackage responseCode7 [freshPending 7] =
      [{ reqId := 7, registered := false, timerActive := false,
         settled := some (.rejectedApi
           { code := 7, message := "Unknown component" }) }] ∧
    QSysApiError.hint { code := 7, message := "Unknown component" } =
      "Unknown component name" := by
  simp only [List.mem_cons, List.not_mem_nil, or_false, not_or] at h
  obtain ⟨h1, h2, h3, h4, h5, h6, h7, h8, h9, h10, h11, h12, h13, h14, h15⟩ := h
  refine ⟨rfl, rfl, rfl, rfl, rfl, rfl, rfl, rfl, rfl, rfl, rfl, rfl, rfl,
    rfl, rfl, ?_, by decide, rfl⟩
  simp [QSysApiError.hint, h1, h2, h3, h4, h5, h6, h7, h8, h9, h10, h11, h12,
    h13, h14, h15]

theorem api_error_hint_table_witness :
    QSysApiError.hint { code := 42, message := "boom" } = "Unknown Error" :=
  (api_error_hint_table 42 "boom" (by decide)).2.2.2.2.2.2.2.2.2.2.2.2.2.2.2.1

/-- A destroyed socket is in the destroyed set it was just added to. -/
theorem mem_insert_self_nat (a : Nat) (l : List Nat) : a ∈ insert a l := by
  by_cases h : a ∈ l
  · rwa [List.insert_pos h]
  · rw [List.insert_neg h]
    exact List.mem_cons_self a l

/-- C7: with authentication enabled, a failing `Logon` request — its
promise rejecting, or its response carrying an `error` member — never
stores the socket as the active connection, rejects the connection
promise (so the socket is never handed to the caller), clears the
in-flight attempt, and delivers the failure as status `"Error"` with the
error to every registered status observer. -/
theorem logon_failure_never_ready (s : HandlerState) (sock : Nat)
    (outcome : LogonOutcome)
    (hfail : outcome ≠ .response none)
    (hsock : s.socket = none)
    (hattempt : s.attemptSettled = none) :
    (onLogonSettled sock outcome s).socket = none ∧
    (onLogonSettled sock outcome s).connectionPromise = none ∧
    ∃ e : String,
      (onLogonSettled sock outcome s).attemptSettled =
        some (.error e) ∧
      (onLogonSettled sock outcome s).delivered =
        s.delivered ++ s.statusCallbacks.map fun cb =>
          { observer := cb, socket := none, status := Status.Error,
            error := some e } := by
  cases outcome with
  | response err =>
    cases err with
    | none => exact absurd rfl hfail
    | some e =>
      refine ⟨?_, ?_, e, ?_, ?_⟩ <;>
        simp [onLogonSettled, handleReject, updateStatus, settleAttempt,
          hattempt, hsock]
  | failure e =>
    refine ⟨?_, ?_, e, ?_, ?_⟩ <;>
      simp [onLogonSettled, handleReject, updateStatus, settleAttempt,
        hattempt, hsock]

/-- The handler state during a connection attempt with two registered
status observers, used in the witness. -/
def stateConnecting : HandlerState :=
  { socket := none, connectionPromise := some 0, destroyed := [],
    pending := [], statusCallbacks := ["mixer", "status"], delivered := [],
    attemptSettled := none }

theorem logon_failure_never_ready_witness :
    (onLogonSettled 5 (.failure "Logon refused") stateConnecting).socket =
      none ∧
    (onLogonSettled 5 (.failure "Logon refused")
      stateConnecting).connectionPromise = none ∧
    ∃ e : String,
      (onLogonSettled 5 (.failure "Logon refused")
        stateConnecting).attemptSettled = some (.error e) ∧
      (onLogonSettled 5 (.failure "Logon refused")
        stateConnecting).delivered =
        stateConnecting.delivered ++ stateConnecting.statusCallbacks.map
          fun cb => { observer := cb, socket := none, status := Status.Error,
                      error := some e } :=
  logon_failure_never_ready stateConnecting 5 (.failure "Logon refused")
    (by decide) rfl rfl

/-- An `EngineStatus` notification frame with `params.State = "Active"`. -/
def activeFrame : QsysObj :=
  { method := some "EngineStatus", state := some "Active", changes := [],
    id := none, error := none }

/-- C8: a decoded frame carrying method `"EngineStatus"` with
`params.State = "Active"` emits the `"ready"` event and leaves the state
untouched, while one with `params.State = "Standby"` closes the current
connection via `closeSocket(this.socket)` — destroying the stored socket
when one exists — and emits no `"ready"` event. -/
theorem engine_status_dispatch (s : HandlerState) (obj : QsysObj)
    (hm : obj.method = some "EngineStatus") :
    (obj.state = some "Active" →
      dispatchFrame obj s = (s, [.ready, .package obj])) ∧
    (obj.state = some "Standby" →
      dispatchFrame obj s = (closeSocket s.socket s, [.package obj]) ∧
      ∀ i, s.socket = some i → i ∈ (dispatchFrame obj s).1.destroyed) := by
  refine ⟨fun hst => ?_, fun hst => ⟨?_, fun i hi => ?_⟩⟩
  · simp [dispatchFrame, hm, hst]
  · simp [dispatchFrame, hm, hst]
  · simp only [dispatchFrame, hm, hst, closeSocket, hi]
    exact mem_insert_self_nat i s.destroyed

theorem engine_status_dispatch_witness :
    dispatchFrame activeFrame stateLive =
      (stateLive, [.ready, .package activeFrame]) ∧
    dispatchFrame standbyFrame stateLive =
      (closeSocket stateLive.socket stateLive, [.package standbyFrame]) ∧
    1 ∈ (dispatchFrame standbyFrame stateLive).1.destroyed :=
  ⟨(engine_status_dispatch stateLive activeFrame rfl).1 rfl,
   ((engine_status_dispatch stateLive standbyFrame rfl).2 rfl).1,
   ((engine_status_dispatch stateLive standbyFrame rfl).2 rfl).2 1 rfl⟩

/-- C10: `closeSocket` destroys the socket passed to it but never assigns
the handler's stored socket field (the reassignment of its parameter has
no external effect); the field is cleared by the transport `close`, `end`
and `timeout` handlers. Hence immediately after a Standby-forced teardown
— before any of those events is handled — the stored field still holds
the now-destroyed socket, `getSocket` returns it, and `send` (whose
`forcedSocket` parameter defaults to the stored field) writes to it. -/
theorem close_socket_keeps_field (s : HandlerState) (i : Nat)
    (hsock : s.socket = some i) :
    (∀ arg, (closeSocket arg s).socket = s.socket) ∧
    (closeSocket (some i) s).destroyed = insert i s.destroyed ∧
    (closeHandler i s).socket = none ∧
    (endHandler i s).socket = none ∧
    (timeoutHandler i s).socket = none ∧
    (dispatchFrame standbyFrame s).1.socket = some i ∧
    i ∈ (dispatchFrame standbyFrame s).1.destroyed ∧
    getSocket (dispatchFrame standbyFrame s).1 = .existing i ∧
    sendSocketChoice (dispatchFrame standbyFrame s).1.socket
      (dispatchFrame standbyFrame s).1 = .existing i := by
  refine ⟨fun arg => ?_, rfl, ?_, ?_, ?_, ?_, ?_, ?_, ?_⟩
  · cases arg <;> simp [closeSocket]
  · simp [closeHandler, closeSocket, hsock]
  · simp [endHandler, closeSocket, hsock]
  · simp [timeoutHandler, closeSocket, hsock]
  · simp [dispatchFrame, standbyFrame, closeSocket, hsock]
  · simp only [dispatchFrame, standbyFrame, closeSocket, hsock]
    exact mem_insert_self_nat i s.destroyed
  · simp [dispatchFrame, standbyFrame, closeSocket, hsock, getSocket]
  · simp [dispatchFrame, standbyFrame, closeSocket, hsock, sendSocketChoice]

theorem close_socket_keeps_field_witness :
    (closeHandler 1 stateLive).socket = none ∧
    getSocket (dispatchFrame standbyFrame stateLive).1 = .existing 1 :=
  ⟨(close_socket_keeps_field stateLive 1 rfl).2.2.1,
   (close_socket_keeps_field stateLive 1 rfl).2.2.2.2.2.2.2.1⟩

/-- Over a duplicate-free list of ids, at most one id equals a given
response id. -/
theorem countP_eq_some_le_one (y : Int) :
    ∀ l : List Int, l.Nodup →
      l.countP (fun x => (some y : Option Int) == some x) ≤ 1 := by
  intro l
  induction l with
  | nil => intro _; simp
  | cons x l ih =>
    intro hnd
    rw [List.countP_cons]
    by_cases h : y = x
    · subst h
      have hx : y ∉ l := (List.nodup_cons.mp hnd).1
      have hzero : l.countP (fun x => (some y : Option Int) == some x) = 0 := by
        rw [List.countP_eq_zero]
        intro z hz
        simp only [beq_iff_eq, Option.some.injEq]
        intro he
        exact hx (he ▸ hz)
      simp only [hzero, beq_self_eq_true, if_true, Nat.zero_add, le_refl]
    · have : ((some y : Option Int) == some x) = false := by
        simp [h]
      rw [this]
      simpa using ih (List.nodup_cons.mp hnd).2

/-- The number of pending entries a response reaches equals the number of
registered ids equal to the response id. -/
theorem countP_matches_eq (resp : QsysObj) (ps : List PendingEntry) :
    ps.countP (fun e => respMatches resp e) =
      ((ps.filter fun e => e.registered).map fun e => e.reqId).countP
        (fun x => resp.id == some x) := by
  induction ps with
  | nil => rfl
  | cons e ps ih =>
    rw [List.countP_cons]
    by_cases hr : e.registered = true
    · rw [List.filter_cons_of_pos (by simpa using hr), List.map_cons,
        List.countP_cons, ih]
      simp [respMatches, hr]
    · rw [List.filter_cons_of_neg (by simpa using hr)]
      have : respMatches resp e = false := by
        simp [respMatches, Bool.eq_false_iff.mpr hr]
      simp [this, ih]

/-- C9: a `"package"` event for a decoded response completes a pending
entry exactly when the entry is still registered and the response id
equals its request id; when the registered ids are pairwise distinct, at
most one entry matches; and a response whose id matches no registered
entry leaves the whole pending table unchanged. -/
theorem response_correlation (resp : QsysObj) (ps : List PendingEntry)
    (hnodup : ((ps.filter fun e => e.registered).map fun e => e.reqId).Nodup) :
    (∀ e ∈ ps,
      (respMatches resp e = false → fireListener resp e = e) ∧
      (respMatches resp e = true →
        (fireListener resp e).registered = false ∧
        (fireListener resp e).settled ≠ none)) ∧
    ps.countP (fun e => respMatches resp e) ≤ 1 ∧
    ((∀ e ∈ ps, respMatches resp e = false) →
      deliverPackage resp ps = ps) := by
  refine ⟨fun e _ => ⟨fun hm => ?_, fun hm => ⟨?_, ?_⟩⟩, ?_, fun hall => ?_⟩
  · simp [fireListener, hm]
  · simp [fireListener, hm]
  · cases hs : e.settled <;> simp [fireListener, hm, settleWith, hs]
  · rw [countP_matches_eq]
    cases hid : resp.id with
    | none =>
      have hz : (((ps.filter fun e => e.registered).map fun e =>
          e.reqId).countP fun x => (none : Option Int) == some x) = 0 := by
        rw [List.countP_eq_zero]
        intro x _
        simp
      rw [hz]
      exact Nat.zero_le 1
    | some y => exact countP_eq_some_le_one y _ hnodup
  · have hfix : ∀ e ∈ ps, fireListener resp e = e := fun e he => by
      simp [fireListener, hall e he]
    calc ps.map (fireListener resp) = ps.map id := List.map_congr_left hfix
      _ = ps := ps.map_id

theorem response_correlation_witness :
    (∀ e ∈ [freshPending 1, freshPending 2],
      (respMatches (plainResponse 2) e = false →
        fireListener (plainResponse 2) e = e) ∧
      (respMatches (plainResponse 2) e = true →
        (fireListener (plainResponse 2) e).registered = false ∧
        (fireListener (plainResponse 2) e).settled ≠ none)) ∧
    ([freshPending 1, freshPending 2].countP
      fun e => respMatches (plainResponse 2) e) ≤ 1 ∧
    ((∀ e ∈ [freshPending 1, freshPending 2],
        respMatches (plainResponse 2) e = false) →
      deliverPackage (plainResponse 2) [freshPending 1, freshPending 2] =
        [freshPending 1, freshPending 2]) :=
  response_correlation (plainResponse 2) [freshPending 1, freshPending 2]
    (by decide)

end Qsys
